import Mathlib

/-!
Verification of the Facebook group-media scraper core
(`src/actors/groupMedia/router.ts`).

The development shallowly embeds the pure logic of the scraper:
URL route matching, the Facebook timestamp parser, the DOM stat parser,
the payload-search tree walk, the infinite-scroll tick logic, and the
photo / video / album route handlers.  External collaborators (browser
automation, DOM querying, the request queue, dataset persistence) are
modelled as inputs: each handler takes an environment record carrying the
results of its external calls, and produces an outcome record listing its
observable effects (enqueued URLs, pushed dataset entries with their
privacy masks, logged errors).

Strings are modelled as `List Char`; JavaScript numbers as `Option ℚ`
(`none` models `NaN`); nullable values as `Option`; code that can throw
returns `Except Unit`.
-/

namespace FbScraper

/-- JavaScript strings, modelled as lists of characters. -/
abbrev Str := List Char

/-- A JavaScript number: `none` models `NaN`, `some q` a finite value.
(The scraper only ever produces finite decimal values or `NaN`.) -/
abbrev JNum := Option ℚ

/-- The character class `[a-z0-9]` under the `i` regex flag:
ASCII letters and digits. -/
def isAlnum (c : Char) : Bool := c.isAlpha || c.isDigit

/-- The character class `[\w.-]`: word characters, dot and hyphen. -/
def isWordDotDash (c : Char) : Bool :=
  c.isAlpha || c.isDigit || c = '_' || c = '.' || c = '-'

/-- Match a literal string at the front of the input, returning the rest.
Embeds a literal run inside an anchored regex. -/
def dropLit : Str → Str → Option Str
  | [], s => some s
  | _ :: _, [] => none
  | l :: ls, c :: cs => if l = c then dropLit ls cs else none

/-! ## URL route matchers

Embeds the `REGEX` table of `router.ts` (`FB_GROUP_URL`,
`FB_GROUP_MEDIA_URL`, `FB_GROUP_MEDIA_TAB_URL`, `FB_ALBUM_URL`,
`FB_PHOTO_URL`, `FB_VIDEO_URL`).  Every regex is anchored at the start
(`^`) and each repeated character class is followed by a character
outside the class (`/`, end-of-string, a digit boundary, ...), so regex
backtracking coincides with maximal munch; the matchers below therefore
use `takeWhile`.  Matching runs on the URL path component
(`new URL(url).pathname`), as in the source. -/

/-- The regex tail `(?:$|\/)`: end of string, or a slash followed by
anything (the patterns using it are not right-anchored). -/
def endOrSlash (r : Str) : Bool := r = [] || r.head? = some '/'

/-- `REGEX.FB_GROUP_URL`: `^\/groups\/(?<groupId>[a-z0-9]+)(?:$|\/)`,
case-insensitive.  Returns the `groupId` capture. -/
def fbGroupMatch (path : Str) : Option Str :=
  (dropLit "/groups/".toList path).bind fun r =>
    let gid := r.takeWhile isAlnum
    if gid = [] then none
    else if endOrSlash (r.dropWhile isAlnum) then some gid else none

/-- `REGEX.FB_GROUP_MEDIA_URL`: `^\/groups\/(?<groupId>[a-z0-9]+)\/media\/?$`. -/
def fbGroupMediaMatch (path : Str) : Option Str :=
  (dropLit "/groups/".toList path).bind fun r =>
    let gid := r.takeWhile isAlnum
    if gid = [] then none
    else
      let r2 := r.dropWhile isAlnum
      if r2 = "/media".toList ∨ r2 = "/media/".toList then some gid else none

/-- `REGEX.FB_GROUP_MEDIA_TAB_URL`:
`^\/groups\/(?<groupId>[a-z0-9]+)\/media\/(?<tab>[a-z0-9]+)\/?$`.
Returns the `groupId` and `tab` captures. -/
def fbGroupMediaTabMatch (path : Str) : Option (Str × Str) :=
  (dropLit "/groups/".toList path).bind fun r =>
    let gid := r.takeWhile isAlnum
    if gid = [] then none
    else
      (dropLit "/media/".toList (r.dropWhile isAlnum)).bind fun r2 =>
        let tab := r2.takeWhile isAlnum
        if tab = [] then none
        else
          let r3 := r2.dropWhile isAlnum
          if r3 = [] ∨ r3 = ['/'] then some (gid, tab) else none

/-- `REGEX.FB_ALBUM_URL`: `^\/media\/set(?:$|\/)`. -/
def fbAlbumMatch (path : Str) : Bool :=
  match dropLit "/media/set".toList path with
  | some r => endOrSlash r
  | none => false

/-- `REGEX.FB_PHOTO_URL`: `^\/photo(?:$|\/)`. -/
def fbPhotoMatch (path : Str) : Bool :=
  match dropLit "/photo".toList path with
  | some r => endOrSlash r
  | none => false

/-- `REGEX.FB_VIDEO_URL`:
`^\/(?<userId>[\w.-]+)\/videos\/(?<videoId>[a-z0-9]+)(?:$|\/)`.
Returns the `userId` and `videoId` captures. -/
def fbVideoMatch (path : Str) : Option (Str × Str) :=
  (dropLit "/".toList path).bind fun r =>
    let uid := r.takeWhile isWordDotDash
    if uid = [] then none
    else
      (dropLit "/videos/".toList (r.dropWhile isWordDotDash)).bind fun r2 =>
        let vid := r2.takeWhile isAlnum
        if vid = [] then none
        else if endOrSlash (r2.dropWhile isAlnum) then some (uid, vid) else none

/-- The closed set of route labels of the scraper. -/
inductive RouteLabel
  | FB_GROUP_MEDIA_TAB
  | FB_GROUP_MEDIA
  | FB_GROUP
  | FB_MEDIA_ALBUM
  | FB_MEDIA_PHOTO
  | FB_MEDIA_VIDEO
deriving DecidableEq, Repr

/-- The boolean `match` function of each route entry
(`!!urlObj.pathname.match(REGEX...)`). -/
def routeMatchFn : RouteLabel → Str → Bool
  | .FB_GROUP_MEDIA_TAB, p => (fbGroupMediaTabMatch p).isSome
  | .FB_GROUP_MEDIA, p => (fbGroupMediaMatch p).isSome
  | .FB_GROUP, p => (fbGroupMatch p).isSome
  | .FB_MEDIA_ALBUM, p => fbAlbumMatch p
  | .FB_MEDIA_PHOTO, p => fbPhotoMatch p
  | .FB_MEDIA_VIDEO, p => (fbVideoMatch p).isSome

/-- The `routes` array, in source order. -/
def routes : List RouteLabel :=
  [.FB_GROUP_MEDIA_TAB, .FB_GROUP_MEDIA, .FB_GROUP,
   .FB_MEDIA_ALBUM, .FB_MEDIA_PHOTO, .FB_MEDIA_VIDEO]

/-- The router: the first route (top to bottom) whose matcher fires;
`none` when no route matches (the URL is not handled). -/
def findRoute (path : Str) : Option RouteLabel :=
  routes.find? (fun l => routeMatchFn l path)

/-! ## Timestamp Parser

Embeds `parseFBTimestamp` and the regex `REGEX.TIMESTAMP_DATETIME`:
`^(?<day>[a-z]+)[\s,]+(?<month>[a-z]+)[\s,]+(?<dayOfMonth>\d+)[\s,]+(?<year>\d+)[\D\s,]+(?<hour>\d+)[\s:]+(?<minute>\d+)[\s,]+(?<timeOfDay>[a-z]+)`
with the `i` flag.  Adjacent character classes of the pattern are disjoint,
so regex backtracking again coincides with maximal munch. -/

/-- JavaScript `\s` restricted to the ASCII whitespace the scraper can
meet; after the `trim` and `\s+ → " "` normalisation only `' '` remains. -/
def isWsChar (c : Char) : Bool :=
  c = ' ' || c = '\t' || c = '\n' || c = '\r' || c = '\x0b' || c = '\x0c'

/-- `String.prototype.trim`. -/
def trimWs (s : Str) : Str :=
  ((s.dropWhile isWsChar).reverse.dropWhile isWsChar).reverse

/-- `.replace(/\s+/g, " ")`: each maximal whitespace run becomes one space.
The boolean records whether the previous character was inside a run. -/
def collapseWsAux : Bool → Str → Str
  | _, [] => []
  | prevWs, c :: rest =>
    if isWsChar c then
      if prevWs then collapseWsAux true rest
      else ' ' :: collapseWsAux true rest
    else c :: collapseWsAux false rest

/-- The normalisation `timestampStr.trim().replace(/\s+/g, " ")`. -/
def normTimestamp (s : Str) : Str := collapseWsAux false (trimWs s)

/-- The regex class `[\s,]`. -/
def isSepWsComma (c : Char) : Bool := isWsChar c || c = ','

/-- The regex class `[\s:]`. -/
def isSepWsColon (c : Char) : Bool := isWsChar c || c = ':'

/-- The regex class `[\D\s,]` (identical to `\D` since whitespace and the
comma are non-digits). -/
def isNonDigit (c : Char) : Bool := !c.isDigit

/-- Take a nonempty maximal run of a character class (a `+`-quantified
class of the pattern). -/
def takeClass (p : Char → Bool) (s : Str) : Option (Str × Str) :=
  let t := s.takeWhile p
  if t = [] then none else some (t, s.dropWhile p)

/-- The named captures of `REGEX.TIMESTAMP_DATETIME`. -/
structure TsGroups where
  day : Str
  month : Str
  dayOfMonth : Str
  year : Str
  hour : Str
  minute : Str
  timeOfDay : Str
deriving DecidableEq, Repr

/-- Matching `REGEX.TIMESTAMP_DATETIME` against the normalised input
(`none` models a failed `.match`, which yields `null`).  The pattern is
anchored at the start and free at the end. -/
def matchTimestampDatetime (s : Str) : Option TsGroups :=
  (takeClass Char.isAlpha s).bind fun d =>
  (takeClass isSepWsComma d.2).bind fun s1 =>
  (takeClass Char.isAlpha s1.2).bind fun mo =>
  (takeClass isSepWsComma mo.2).bind fun s2 =>
  (takeClass Char.isDigit s2.2).bind fun dom =>
  (takeClass isSepWsComma dom.2).bind fun s3 =>
  (takeClass Char.isDigit s3.2).bind fun yr =>
  (takeClass isNonDigit yr.2).bind fun s4 =>
  (takeClass Char.isDigit s4.2).bind fun hr =>
  (takeClass isSepWsColon hr.2).bind fun s5 =>
  (takeClass Char.isDigit s5.2).bind fun mi =>
  (takeClass isSepWsComma mi.2).bind fun s6 =>
  (takeClass Char.isAlpha s6.2).map fun tod =>
  { day := d.1, month := mo.1, dayOfMonth := dom.1, year := yr.1,
    hour := hr.1, minute := mi.1, timeOfDay := tod.1 }

/-- Models the external date-fns composition
`formatDate(parseDate(month, "MMMM", new Date()), "MM")` for the en-US
locale: a full English month name (matched case-insensitively) maps to its
two-digit number; on any other input `parseDate` yields an invalid date and
`formatDate` then throws a RangeError, modelled as `none`. -/
def monthToMM (m : Str) : Option Str :=
  let ml := m.map Char.toLower
  if ml = "january".toList then some "01".toList
  else if ml = "february".toList then some "02".toList
  else if ml = "march".toList then some "03".toList
  else if ml = "april".toList then some "04".toList
  else if ml = "may".toList then some "05".toList
  else if ml = "june".toList then some "06".toList
  else if ml = "july".toList then some "07".toList
  else if ml = "august".toList then some "08".toList
  else if ml = "september".toList then some "09".toList
  else if ml = "october".toList then some "10".toList
  else if ml = "november".toList then some "11".toList
  else if ml = "december".toList then some "12".toList
  else none

/-- `Number.parseInt` on an all-digit capture. -/
def digitsVal (s : Str) : ℕ := s.foldl (fun a c => 10 * a + (c.toNat - 48)) 0

/-- Decimal rendering of a number in a template literal. -/
def natToStr (n : ℕ) : Str := Nat.toDigits 10 n

/-- `String.prototype.includes`: does `pat` occur as a contiguous
substring? -/
def hasSubstr (pat : Str) : Str → Bool
  | [] => decide (pat = [])
  | c :: rest => (dropLit pat (c :: rest)).isSome || hasSubstr pat rest

/-- `timeOfDay.toLowerCase().includes("pm")`. -/
def containsPm (s : Str) : Bool := hasSubstr "pm".toList (s.map Char.toLower)

/-- The separator the template literal on the `const timestamp = ...` line
actually contains: U+2010 HYPHEN (bytes `e2 80 90` in the source file), not
the ASCII hyphen-minus U+002D shown in the doc comment above the
function. -/
def tsHyphen : Char := Char.ofNat 0x2010

/-- Embeds `parseFBTimestamp`.  When the regex does not match, the
destructuring leaves every group `undefined`; the subsequent
`parseDate(month, ...)` produces an invalid date so `formatDate` throws a
RangeError (and `timeOfDay.toLowerCase()` would throw a TypeError): the
function throws instead of returning — modelled as `Except.error ()`.
The same happens when the month capture is not a recognised month name. -/
def parseFBTimestamp (s : Str) : Except Unit Str :=
  match matchTimestampDatetime (normTimestamp s) with
  | none => .error ()
  | some g =>
    match monthToMM g.month with
    | none => .error ()
    | some mm =>
      let hourAdjusted : Str :=
        if containsPm g.timeOfDay then natToStr (digitsVal g.hour + 12) else g.hour
      .ok (g.year ++ [tsHyphen] ++ mm ++ [tsHyphen] ++ g.dayOfMonth ++ ['T']
            ++ hourAdjusted ++ [':'] ++ g.minute ++ ":00Z".toList)

/-! ## Stat Parser (`getPostStats`)

Embeds `getPostStats` and the regexes `COMMENT_COUNT`
(`/(?<comments>[\d,.]+)(?:\s+comment)?/i`), `LIKE_COUNT`
(`/like.*?(?<likes>[\d,.]+)/i`) and `VIEW_COUNT`
(`/(?<views>[\d,.]+)\s*(?<viewsUnit>[kmb])/i`).  The DOM library is an
external collaborator; `getPostStats` consumes the results of its calls,
gathered in `StatsDomCtx`. -/

/-- The regex class `[\d,.]`. -/
def isDigitCommaDot (c : Char) : Bool := c.isDigit || c = ',' || c = '.'

/-- First maximal run of a class in an unanchored search: the `comments`
capture of `COMMENT_COUNT` (its optional `(?:\s+comment)?` tail constrains
nothing). -/
def firstRun (p : Char → Bool) : Str → Option Str
  | [] => none
  | c :: rest => if p c then some ((c :: rest).takeWhile p) else firstRun p rest

/-- First `[\d,.]+` run reached from here without crossing a line
terminator (the lazy `.*?` of `LIKE_COUNT` cannot match a newline). -/
def runBeforeNewline (p : Char → Bool) : Str → Option Str
  | [] => none
  | c :: rest =>
      if c = '\n' ∨ c = '\r' then none
      else if p c then some ((c :: rest).takeWhile p) else runBeforeNewline p rest

/-- The `likes` capture of the unanchored `LIKE_COUNT` search: the first
occurrence of `like` (case-insensitive) followed — on the same line — by a
`[\d,.]+` run; later `like` occurrences are tried when the first has no
following run. -/
def likeCountCapture : Str → Option Str
  | [] => none
  | c :: rest =>
      match dropLit "like".toList (c :: rest) with
      | some r =>
          match runBeforeNewline isDigitCommaDot r with
          | some cap => some cap
          | none => likeCountCapture rest
      | none => likeCountCapture rest

/-- The `views`/`viewsUnit` captures of the unanchored `VIEW_COUNT` search
on an already-lowercased text: a `[\d,.]+` run, optional whitespace, then a
unit letter `k`, `m` or `b`. -/
def viewCountCapture : Str → Option (Str × Char)
  | [] => none
  | c :: rest =>
      if isDigitCommaDot c then
        let run := (c :: rest).takeWhile isDigitCommaDot
        match ((c :: rest).dropWhile isDigitCommaDot).dropWhile isWsChar with
        | u :: _ =>
            if u = 'k' ∨ u = 'm' ∨ u = 'b' then some (run, u)
            else viewCountCapture rest
        | [] => viewCountCapture rest
      else viewCountCapture rest

/-- `.replace(/[,\s]+/g, "")`. -/
def stripCommaWs (s : Str) : Str := s.filter (fun c => !(c = ',' || isWsChar c))

/-- `Number.parseFloat` on the stripped captures (strings of digits and
dots): longest leading `digits[.digits]` prefix; no leading digit and no
fractional digit yields `NaN` (`none`). -/
def parseFloatQ (s : Str) : JNum :=
  let ip := s.takeWhile Char.isDigit
  match s.dropWhile Char.isDigit with
  | '.' :: r2 =>
      let fp := r2.takeWhile Char.isDigit
      if ip = [] ∧ fp = [] then none
      else some ((digitsVal ip : ℚ) + (digitsVal fp : ℚ) / (10 : ℚ) ^ fp.length)
  | _ => if ip = [] then none else some ((digitsVal ip : ℚ))

/-- `X ? Number.parseFloat(X.replace(/[,\s]+/g, "")) : 0` where `X` is an
optional regex capture (an absent or empty capture is falsy). -/
def capToCount (cap : Option Str) : JNum :=
  match cap with
  | some c => if c = [] then some 0 else parseFloatQ (stripCommaWs c)
  | none => some 0

/-- JavaScript multiplication on numbers (`NaN` absorbs). -/
def jnumMul (a b : JNum) : JNum :=
  match a, b with
  | some x, some y => some (x * y)
  | _, _ => none

/-- The `serialAsyncFind` test for a comment-count candidate:
`text?.match(REGEX.COMMENT_COUNT)` — a null text never matches. -/
def commentTest (t : Option Str) : Bool :=
  match t with
  | some txt => (firstRun isDigitCommaDot txt).isSome
  | none => false

/-- The `serialAsyncFind` test for the views element:
`text?.match(/views/i)`. -/
def viewsTest (t : Option Str) : Bool :=
  match t with
  | some txt => hasSubstr "views".toList (txt.map Char.toLower)
  | none => false

/-- The DOM query results `getPostStats` consumes, provided by the external
DOM library: `likesAria` is `none` when `findOne('[aria-label*="Like:"]')`
finds no element, otherwise carries the element's `aria-label` property
(itself nullable); `commentTexts` lists the `text()` of each
`'[role="button"] [dir="auto"]'` candidate in document order;
`containerChildTexts` is the result of the
`likesEl.getCommonAncestor(commentsEl)` lookup — `none` when the ancestor
is null, otherwise the `text()` of each child element. -/
structure StatsDomCtx where
  likesAria : Option (Option Str)
  commentTexts : List (Option Str)
  containerChildTexts : Option (List (Option Str))

/-- The record returned by `getPostStats` (outer `none` = null field). -/
structure PostStats where
  likesCount : Option JNum
  commentsCount : Option JNum
  viewsCount : Option JNum
  sharesCount : Option JNum
deriving Repr

/-- The views-unit multiplier table
`{ k: 1000, m: 10 ** 6, b: 10 ** 9, t: 10 ** 12 }` with the `|| 1`
fallback. -/
def viewsUnitMulti (u : Char) : ℚ :=
  if u = 'k' then 1000
  else if u = 'm' then 1000000
  else if u = 'b' then 1000000000
  else if u = 't' then 1000000000000
  else 1

/-- Embeds `getPostStats`: likes from the likes element's aria-label
(`?? "like: 0"`), comments from the first candidate whose text matches
`COMMENT_COUNT`, views from the first child of the likes/comments common
ancestor whose text contains `views` (with unit multiplier), and a
`sharesCount` that is always null.  A stat whose element is missing stays
null. -/
def getPostStats (dom : StatsDomCtx) : PostStats :=
  let commentsElText : Option (Option Str) := dom.commentTexts.find? commentTest
  let likesCount : Option JNum :=
    match dom.likesAria with
    | none => none
    | some aria =>
        let likesText := aria.getD "like: 0".toList
        some (capToCount (likeCountCapture (likesText.map Char.toLower)))
  let commentsCount : Option JNum :=
    match commentsElText with
    | none => none
    | some t =>
        some (capToCount (match t with
          | some txt => firstRun isDigitCommaDot txt
          | none => none))
  let viewsCount : Option JNum :=
    match dom.likesAria, commentsElText with
    | some _, some _ =>
        match dom.containerChildTexts with
        | none => none
        | some kids =>
            match kids.find? viewsTest with
            | none => none
            | some t =>
                let cap := match t with
                  | some txt => viewCountCapture (txt.map Char.toLower)
                  | none => none
                let viewsNum : JNum := capToCount (Option.map Prod.fst cap)
                let multi : ℚ := match cap with
                  | some p => viewsUnitMulti p.2
                  | none => 1
                some (jnumMul viewsNum (some multi))
    | _, _ => none
  { likesCount := likesCount, commentsCount := commentsCount,
    viewsCount := viewsCount, sharesCount := none }

/-! ## Infinite-scroll tick logic

The scroll tick callbacks of the `FB_GROUP_MEDIA_TAB` and `FB_MEDIA_ALBUM`
handlers are textually identical: extract the link of each newly appeared
element, add the batch to the running `itemsCount`, enqueue it, then
`if (outputMaxEntries != null && itemsCount > outputMaxEntries) stopFn()`. -/

/-- The stop condition evaluated at the end of one tick. -/
def scrollTickStop (outputMaxEntries : Option ℕ) (itemsCount : ℕ) : Bool :=
  match outputMaxEntries with
  | some m => decide (m < itemsCount)
  | none => false

/-- A pagination run over the per-tick link batches the page reveals:
returns the final `itemsCount`, the enqueued links, and whether `stopFn`
was invoked.  A tick enqueues its links before evaluating the stop
condition; once `stopFn` is invoked no further tick runs. -/
def runScroll (outputMaxEntries : Option ℕ) : List (List Str) → ℕ → ℕ × List Str × Bool
  | [], c => (c, [], false)
  | b :: bs, c =>
      let c2 := c + b.length
      if scrollTickStop outputMaxEntries c2 then (c2, b, true)
      else
        let r := runScroll outputMaxEntries bs c2
        (r.1, b ++ r.2.1, r.2.2)

/-! ## Payload Search (`searchFbPayloads` / `walkFilter`)

`searchFbPayloads` parses candidate script blocks (external page data) and
calls `walkFilter` on the resulting structure.  `walkFilter` is pure: a
worklist walk over a JSON-like value collecting every node the filter
accepts. -/

/-- JSON-like values — the shape of parsed embedded payloads. -/
inductive JVal where
  | jnull : JVal
  | jbool : Bool → JVal
  | jnum : ℚ → JVal
  | jstr : Str → JVal
  | jarr : List JVal → JVal
  | jobj : List (Str × JVal) → JVal

/-- The values `innerWalkFind` enqueues for one node: the items of an
array (`Array.isArray`), `Object.values` of a non-null object, nothing for
primitives. -/
def JVal.children : JVal → List JVal
  | .jarr items => items
  | .jobj fields => fields.map Prod.snd
  | _ => []

/-- The worklist loop of `walkFilter`: dequeue from the front
(`queue.shift()`), record the node if the filter accepts it
(`results.push`), and enqueue its children at the front —
`forEach(... queue.unshift(...))` places them in reverse order. -/
def walkLoop (filterFn : JVal → Bool) : List JVal → List JVal → List JVal
  | [], results => results
  | curr :: queue, results =>
      walkLoop filterFn (curr.children.reverse ++ queue)
        (if filterFn curr then results ++ [curr] else results)
termination_by qs _ => (qs.map sizeOf).sum
decreasing_by
  simp_wf
  have hlist : ∀ l : List JVal, (l.map sizeOf).sum < sizeOf l := by
    intro l
    induction l with
    | nil => simp
    | cons a t ih =>
        simp only [List.map_cons, List.sum_cons]
        have hs : sizeOf (a :: t) = 1 + sizeOf a + sizeOf t := rfl
        omega
  have hfields : ∀ fs : List (Str × JVal),
      ((fs.map Prod.snd).map sizeOf).sum < sizeOf fs := by
    intro fs
    induction fs with
    | nil => simp
    | cons a t ih =>
        simp only [List.map_cons, List.sum_cons]
        have h1 : sizeOf (a :: t) = 1 + sizeOf a + sizeOf t := rfl
        have h2 : sizeOf a = 1 + sizeOf a.1 + sizeOf a.2 := rfl
        omega
  have hch : (curr.children.map sizeOf).sum < sizeOf curr := by
    cases curr with
    | jnull => simp [JVal.children]
    | jbool b => simp [JVal.children]
    | jnum q => simp [JVal.children]
    | jstr s => simp [JVal.children]
    | jarr items =>
        have h1 := hlist items
        simp only [JVal.children, JVal.jarr.sizeOf_spec]
        omega
    | jobj fields =>
        have h1 := hfields fields
        simp only [JVal.children, JVal.jobj.sizeOf_spec]
        omega
  simp only [List.map_append, List.sum_append, List.map_cons, List.sum_cons,
    List.map_reverse, List.sum_reverse]
  omega

/-- `walkFilter(d, filterFn)`: the worklist walk started at the root. -/
def walkFilter (d : JVal) (filterFn : JVal → Bool) : List JVal :=
  walkLoop filterFn [d] []

mutual

/-- The multiset of all nested sub-values of a value (itself included),
reached through array items and object values — the specification side
for `walkFilter`. -/
def JVal.subtreeM : JVal → Multiset JVal
  | .jnull => {JVal.jnull}
  | .jbool b => {JVal.jbool b}
  | .jnum q => {JVal.jnum q}
  | .jstr s => {JVal.jstr s}
  | .jarr items => JVal.jarr items ::ₘ subtreeMList items
  | .jobj fields => JVal.jobj fields ::ₘ subtreeMFields fields

/-- Sub-values of every value in a list. -/
def subtreeMList : List JVal → Multiset JVal
  | [] => 0
  | v :: rest => JVal.subtreeM v + subtreeMList rest

/-- Sub-values of every field value of an object. -/
def subtreeMFields : List (Str × JVal) → Multiset JVal
  | [] => 0
  | f :: rest => JVal.subtreeM f.2 + subtreeMFields rest

end

/-! ## Route handlers

Each handler is embedded as a function of an environment record carrying
the results of its external calls (page payload search, DOM queries, page
actions, URL search params) to an outcome record of its observable
effects.  The `get...DataFromPayloads` stages read external page payloads
through optional chaining; their results are the `payloadData` environment
fields.  `getAuthoredPostMetadata` / `getAlbumMetadata` are pure DOM
lookups whose results the environment provides as the `meta...` fields. -/

/-- Image metadata record (§3 of the spec: `{url, alt, width, height,
size, mime}`). -/
structure ImageMeta where
  url : Option Str
  alt : Option Str
  width : Option JNum
  height : Option JNum
  size : Option JNum
  mime : Option Str
deriving DecidableEq, Repr

/-- Modelled from the spec: the `imageMeta()` helper of `utils/image` is
not under `src/`; §3 — width/height/size/mime are best-effort and commonly
null.  The empty metadata record. -/
def emptyImageMeta : ImageMeta :=
  { url := none, alt := none, width := none, height := none,
    size := none, mime := none }

/-- Embeds `makeImageMeta` (router.ts): a truthy URL is fetched through the
external `getImageMetaFromUrl` (environment-provided `fetch`), else the
empty record is used; the result is spread over the extra props
(`{...extraProps, ...imageMetadata}`).  Modelled from the spec for the
missing `utils/image` helpers: §4.5 — the fetch enriches the record with
file size/MIME derived by requesting the image resource, keeping fields it
does not produce (such as `alt`). -/
def makeImageMeta (fetch : Str → ImageMeta) (url : Option Str) (extra : ImageMeta) :
    ImageMeta :=
  match url with
  | some u =>
      if u = [] then extra
      else
        let m := fetch u
        { url := m.url, alt := extra.alt, width := m.width, height := m.height,
          size := m.size, mime := m.mime }
  | none => extra

/-- JavaScript falsiness of a nullable string (`null`, `undefined` and the
empty string are falsy). -/
def strFalsy (v : Option Str) : Bool :=
  match v with
  | none => true
  | some s => decide (s = [])

/-- JavaScript truthiness of a nullable string. -/
def strTruthy (v : Option Str) : Bool := !strFalsy v

/-- The timestamp stage shared by the photo/video/album handlers: skipped
when the current value is truthy; otherwise the tooltip text (nullable
result of the external `getPostTimestampValue` page action) is parsed when
truthy — `parseFBTimestamp` may throw, and nothing catches it. -/
def tsStage (cur : Option Str) (raw : Option Str) : Except Unit (Option Str) :=
  if strTruthy cur then .ok cur
  else
    match raw with
    | some r => if r = [] then .ok none else (parseFBTimestamp r).map some
    | none => .ok none

/-- A privacy-mask entry: the path of a field marked for redaction (every
leaf of the source `privacyMask` literals is the constant-true
predicate `() => true`). -/
abbrev FieldPath := List String

/-- The `privacyMask` literal of the photo handler's `pushData` call. -/
def photoPrivacyMask : List FieldPath :=
  [["authorName"], ["authorProfileUrl"], ["authorProfileImageThumb", "url"]]

/-- The `privacyMask` literal of the video handler's `pushData` call. -/
def videoPrivacyMask : List FieldPath :=
  [["userId"], ["authorName"], ["authorProfileUrl"],
   ["authorProfileImageThumb", "url"]]

/-- The `privacyMask` literal of the album handler's `pushData` call. -/
def albumPrivacyMask : List FieldPath :=
  [["ownerFbid"], ["ownerName"], ["ownerUsername"], ["ownerType"],
   ["contributors"]]

/-! ### Photo handler (`FB_MEDIA_PHOTO`) -/

/-- The partial photo record built by `getPhotoDataFromPayloads` from the
embedded payloads (external page data). -/
structure PhotoPayloadData where
  imagePreview : ImageMeta
  commentsCount : Option JNum
  likesCount : Option JNum
  sharesCount : Option JNum
  viewsCount : Option JNum
  timestamp : Option Str
  authorName : Option Str
  authorFbid : Option Str
  authorProfileUrl : Option Str
deriving Repr

/-- Results of the photo handler's external calls: the page URL and its
path, the `set`/`fbid` search params (external `getSearchParams`), the
payload stage's record, the full-size-photo page action's cleaned URL
(external clicks plus `removeSearchParams`), the DOM preview `src`/`alt`
props, the timestamp tooltip text, the stat DOM context, the
`getAuthoredPostMetadata` results, and the external image-metadata
fetch. -/
structure PhotoEnv where
  pageUrl : Str
  pathname : Str
  setParam : Option Str
  fbidParam : Option Str
  payloadData : PhotoPayloadData
  fullSizeUrl : Option Str
  domPreviewUrl : Option Str
  domPreviewAlt : Option Str
  timestampRaw : Option Str
  statsDom : StatsDomCtx
  metaAuthorName : Option Str
  metaAuthorProfileUrl : Option Str
  metaAuthorImgThumbUrl : Option Str
  metaDescription : Option Str
  fetchImageMeta : Str → ImageMeta

/-- The emitted photo record (`satisfies FbPhotoPostEntry`). -/
structure PhotoEntry where
  imagePreview : ImageMeta
  commentsCount : Option JNum
  likesCount : Option JNum
  sharesCount : Option JNum
  viewsCount : Option JNum
  timestamp : Option Str
  authorName : Option Str
  authorFbid : Option Str
  authorProfileUrl : Option Str
  url : Str
  type : Str
  fbid : Option Str
  albumId : Option Str
  groupId : Option Str
  description : Option Str
  imageFullSize : ImageMeta
  authorProfileImageThumb : ImageMeta

/-- Observable effects of one photo-handler invocation. -/
structure PhotoOutcome where
  pushed : List (PhotoEntry × List FieldPath)
  statsQueried : Bool

/-- Photo stage 3 (preview image): entered when the payload preview URL or
alt is falsy; each DOM value overwrites its field whenever the value
itself is truthy — the source guards (`if (url) ...`) test the incoming
value, not the field being written. -/
def photoPreviewStage (pd : PhotoPayloadData) (domUrl domAlt : Option Str) :
    PhotoPayloadData :=
  if strFalsy pd.imagePreview.url || strFalsy pd.imagePreview.alt then
    let ip0 := pd.imagePreview
    let ip1 := if strTruthy domUrl then { ip0 with url := domUrl } else ip0
    let ip2 := if strTruthy domAlt then { ip1 with alt := domAlt } else ip1
    { pd with imagePreview := ip2 }
  else pd

/-- The guard of photo stage 5: the source array literal is
`[photoData.commentsCount, photoData.likesCount, photoData.commentsCount]`
— the comments field twice, `viewsCount` never. -/
def photoStatsGuard (pd : PhotoPayloadData) : Bool :=
  pd.commentsCount.isNone || pd.likesCount.isNone || pd.commentsCount.isNone

/-- Photo stage 5 body (DOM stats): each stat from `getPostStats`
overwrites its field whenever the incoming stat is non-null
(`if (likesCount != null) photoData.likesCount = likesCount` and
likewise) — again testing the incoming value, not the target field. -/
def photoStatsStage (pd : PhotoPayloadData) (st : PostStats) : PhotoPayloadData :=
  let a := if st.likesCount.isSome then { pd with likesCount := st.likesCount } else pd
  let b := if st.commentsCount.isSome then { a with commentsCount := st.commentsCount } else a
  if st.viewsCount.isSome then { b with viewsCount := st.viewsCount } else b

/-- The photo record after the preview stage with the timestamp-stage
result written back (`photoData.timestamp = timestamp`). -/
def photoAfterTs (env : PhotoEnv) (ts : Option Str) : PhotoPayloadData :=
  { photoPreviewStage env.payloadData env.domPreviewUrl env.domPreviewAlt with
    timestamp := ts }

/-- The photo record after stage 5 (DOM stats), entered only when the
stage guard fires. -/
def photoAfterStats (env : PhotoEnv) (ts : Option Str) : PhotoPayloadData :=
  if photoStatsGuard (photoAfterTs env ts) then
    photoStatsStage (photoAfterTs env ts) (getPostStats env.statsDom)
  else photoAfterTs env ts

/-- The photo record after stage 6 (author metadata, guarded by falsiness
of the target fields). -/
def photoFinal (env : PhotoEnv) (ts : Option Str) : PhotoPayloadData :=
  let pd3 := photoAfterStats env ts
  let pd4 := if strFalsy pd3.authorName
    then { pd3 with authorName := env.metaAuthorName } else pd3
  if strFalsy pd4.authorProfileUrl
    then { pd4 with authorProfileUrl := env.metaAuthorProfileUrl } else pd4

/-- The assembled photo entry: the resolved record spread together with
the URL data and the enriched image-metadata records. -/
def photoEntryOf (env : PhotoEnv) (ts : Option Str) : PhotoEntry :=
  let pd5 := photoFinal env ts
  { imagePreview := makeImageMeta env.fetchImageMeta pd5.imagePreview.url pd5.imagePreview
    commentsCount := pd5.commentsCount
    likesCount := pd5.likesCount
    sharesCount := pd5.sharesCount
    viewsCount := pd5.viewsCount
    timestamp := pd5.timestamp
    authorName := pd5.authorName
    authorFbid := pd5.authorFbid
    authorProfileUrl := pd5.authorProfileUrl
    url := env.pageUrl
    type := "photo".toList
    fbid := env.fbidParam
    albumId := env.setParam
    groupId := fbGroupMatch env.pathname
    description := env.metaDescription
    imageFullSize := makeImageMeta env.fetchImageMeta env.fullSizeUrl emptyImageMeta
    authorProfileImageThumb :=
      makeImageMeta env.fetchImageMeta env.metaAuthorImgThumbUrl emptyImageMeta }

/-- Embeds the `FB_MEDIA_PHOTO` handler: URL data, payload stage, full-size
page action, preview stage, timestamp stage (which may throw), DOM-stats
stage, author stage, image-metadata enrichment, one `pushData` with the
photo privacy mask. -/
def fbMediaPhotoHandler (env : PhotoEnv) : Except Unit PhotoOutcome :=
  match tsStage (photoPreviewStage env.payloadData env.domPreviewUrl
      env.domPreviewAlt).timestamp env.timestampRaw with
  | .error e => .error e
  | .ok ts =>
    .ok { pushed := [(photoEntryOf env ts, photoPrivacyMask)],
          statsQueried := photoStatsGuard (photoAfterTs env ts) }

/-! ### Video handler (`FB_MEDIA_VIDEO`) -/

/-- The partial video record built by `getVideoDataFromPayloads`
(`userId` and `videoId` start null there). -/
structure VideoPayloadData where
  fbid : Option Str
  albumId : Option Str
  groupId : Option Str
  userId : Option Str
  videoId : Option Str
  timestamp : Option Str
  videoUrl : Option Str
  videoTitle : Option Str
  videoHeight : Option JNum
  videoWidth : Option JNum
  videoDuration : Option JNum
  videoThumbImage : ImageMeta
  authorFbid : Option Str
  authorName : Option Str
  authorProfileUrl : Option Str
  authorProfileImageThumb : ImageMeta
  commentsCount : Option JNum
  viewsCount : Option JNum
  likesCount : Option JNum
  sharesCount : Option JNum
  postedToEntityFbid : Option Str
  postedToEntityName : Option Str
  postedToEntityUrl : Option Str
deriving Repr

/-- Results of the video handler's external calls (analogous to
`PhotoEnv`; `domVideo...` are the `src`/`duration`/`videoHeight`/
`videoWidth` props of the permalink video element, `domThumb...` the
thumb image props). -/
structure VideoEnv where
  pageUrl : Str
  pathname : Str
  setParam : Option Str
  fbidParam : Option Str
  payloadData : VideoPayloadData
  domVideoUrl : Option Str
  domVideoDuration : Option JNum
  domVideoHeight : Option JNum
  domVideoWidth : Option JNum
  domThumbUrl : Option Str
  domThumbAlt : Option Str
  timestampRaw : Option Str
  statsDom : StatsDomCtx
  metaAuthorName : Option Str
  metaAuthorProfileUrl : Option Str
  metaAuthorImgThumbUrl : Option Str
  metaDescription : Option Str
  fetchImageMeta : Str → ImageMeta

/-- The emitted video record (`satisfies FbVideoPostEntry`). -/
structure VideoEntry where
  fbid : Option Str
  albumId : Option Str
  groupId : Option Str
  userId : Option Str
  videoId : Option Str
  timestamp : Option Str
  videoUrl : Option Str
  videoTitle : Option Str
  videoHeight : Option JNum
  videoWidth : Option JNum
  videoDuration : Option JNum
  videoThumbImage : ImageMeta
  authorFbid : Option Str
  authorName : Option Str
  authorProfileUrl : Option Str
  authorProfileImageThumb : ImageMeta
  commentsCount : Option JNum
  viewsCount : Option JNum
  likesCount : Option JNum
  sharesCount : Option JNum
  postedToEntityFbid : Option Str
  postedToEntityName : Option Str
  postedToEntityUrl : Option Str
  url : Str
  type : Str
  description : Option Str

/-- Observable effects of one video-handler invocation; `statsQueried`
records whether the DOM-stats stage body ran. -/
structure VideoOutcome where
  pushed : List (VideoEntry × List FieldPath)
  statsQueried : Bool

/-- Video stage 2 (URL data): entered when `albumId`, `fbid`, `userId` or
`videoWidth` is null; fills the ID fields from the search params and the
`FB_VIDEO_URL` captures, each only when the target is null. -/
def videoUrlDataStage (vd : VideoPayloadData) (env : VideoEnv) : VideoPayloadData :=
  if vd.albumId.isNone || vd.fbid.isNone || vd.userId.isNone || vd.videoWidth.isNone then
    let caps := fbVideoMatch env.pathname
    let a := if vd.albumId.isNone then { vd with albumId := env.setParam } else vd
    let b := if a.fbid.isNone then { a with fbid := env.fbidParam } else a
    let c := if b.userId.isNone then { b with userId := caps.map Prod.fst } else b
    if c.videoId.isNone then { c with videoId := caps.map Prod.snd } else c
  else vd

/-- The guard shared by video stages 3 and 6:
`[videoData.videoUrl, videoData.videoDuration, videoData.videoHeight,
videoData.videoWidth].some((d) => d == null)`. -/
def videoGuard (vd : VideoPayloadData) : Bool :=
  vd.videoUrl.isNone || vd.videoDuration.isNone
    || vd.videoHeight.isNone || vd.videoWidth.isNone

/-- Video stage 3 (video element props): fills the four video fields from
the DOM, each only when the target is null. -/
def videoVideoStage (vd : VideoPayloadData) (env : VideoEnv) : VideoPayloadData :=
  if videoGuard vd then
    let a := if vd.videoUrl.isNone then { vd with videoUrl := env.domVideoUrl } else vd
    let b := if a.videoDuration.isNone
      then { a with videoDuration := env.domVideoDuration } else a
    let c := if b.videoHeight.isNone
      then { b with videoHeight := env.domVideoHeight } else b
    if c.videoWidth.isNone then { c with videoWidth := env.domVideoWidth } else c
  else vd

/-- Video stage 4 (thumb image): fills thumb url/alt, each only when the
target is null. -/
def videoThumbStage (vd : VideoPayloadData) (env : VideoEnv) : VideoPayloadData :=
  if vd.videoThumbImage.url.isNone || vd.videoThumbImage.alt.isNone then
    let t0 := vd.videoThumbImage
    let t1 := if t0.url.isNone then { t0 with url := env.domThumbUrl } else t0
    let t2 := if t1.alt.isNone then { t1 with alt := env.domThumbAlt } else t1
    { vd with videoThumbImage := t2 }
  else vd

/-- Video stage 6 body (DOM stats): fills the four stat fields from
`getPostStats`, each only when the target is null. -/
def videoStatsStage (vd : VideoPayloadData) (st : PostStats) : VideoPayloadData :=
  let a := if vd.likesCount.isNone then { vd with likesCount := st.likesCount } else vd
  let b := if a.commentsCount.isNone
    then { a with commentsCount := st.commentsCount } else a
  let c := if b.sharesCount.isNone then { b with sharesCount := st.sharesCount } else b
  if c.viewsCount.isNone then { c with viewsCount := st.viewsCount } else c

/-- The video record state after stages 2 and 3 — the state whose four
video fields the stage-6 guard re-examines (stages 4 and 5 do not touch
them). -/
def videoAfterVideo (env : VideoEnv) : VideoPayloadData :=
  videoVideoStage (videoUrlDataStage env.payloadData env) env

/-- The video record state after stage 4. -/
def videoAfterThumb (env : VideoEnv) : VideoPayloadData :=
  videoThumbStage (videoAfterVideo env) env

/-- The video record after the thumb stage with the timestamp-stage result
written back. -/
def videoAfterTs (env : VideoEnv) (ts : Option Str) : VideoPayloadData :=
  { videoAfterThumb env with timestamp := ts }

/-- The video record after stage 6 (DOM stats), entered only when the
stage-6 guard — the nullness of the four video fields — fires. -/
def videoAfterStats (env : VideoEnv) (ts : Option Str) : VideoPayloadData :=
  if videoGuard (videoAfterTs env ts) then
    videoStatsStage (videoAfterTs env ts) (getPostStats env.statsDom)
  else videoAfterTs env ts

/-- The video record after stage 7 (author metadata, guarded by falsiness
of the target fields). -/
def videoFinal (env : VideoEnv) (ts : Option Str) : VideoPayloadData :=
  let vd5 := videoAfterStats env ts
  let vd6 := if strFalsy vd5.authorName
    then { vd5 with authorName := env.metaAuthorName } else vd5
  if strFalsy vd6.authorProfileUrl
    then { vd6 with authorProfileUrl := env.metaAuthorProfileUrl } else vd6

/-- The assembled video entry: the resolved record spread together with
the URL, type tag, description and the enriched image metadata. -/
def videoEntryOf (env : VideoEnv) (ts : Option Str) : VideoEntry :=
  let vd7 := videoFinal env ts
  { fbid := vd7.fbid
    albumId := vd7.albumId
    groupId := vd7.groupId
    userId := vd7.userId
    videoId := vd7.videoId
    timestamp := vd7.timestamp
    videoUrl := vd7.videoUrl
    videoTitle := vd7.videoTitle
    videoHeight := vd7.videoHeight
    videoWidth := vd7.videoWidth
    videoDuration := vd7.videoDuration
    videoThumbImage :=
      makeImageMeta env.fetchImageMeta vd7.videoThumbImage.url vd7.videoThumbImage
    authorFbid := vd7.authorFbid
    authorName := vd7.authorName
    authorProfileUrl := vd7.authorProfileUrl
    authorProfileImageThumb :=
      makeImageMeta env.fetchImageMeta env.metaAuthorImgThumbUrl emptyImageMeta
    commentsCount := vd7.commentsCount
    viewsCount := vd7.viewsCount
    likesCount := vd7.likesCount
    sharesCount := vd7.sharesCount
    postedToEntityFbid := vd7.postedToEntityFbid
    postedToEntityName := vd7.postedToEntityName
    postedToEntityUrl := vd7.postedToEntityUrl
    url := env.pageUrl
    type := "video".toList
    description := env.metaDescription }

/-- Embeds the `FB_MEDIA_VIDEO` handler: payload stage, URL-data stage,
video stage, thumb stage, timestamp stage (which may throw), DOM-stats
stage guarded by the nullness of the four video fields, author stage,
image-metadata enrichment, one `pushData` with the video privacy mask. -/
def fbMediaVideoHandler (env : VideoEnv) : Except Unit VideoOutcome :=
  match tsStage (videoAfterThumb env).timestamp env.timestampRaw with
  | .error e => .error e
  | .ok ts =>
    .ok { pushed := [(videoEntryOf env ts, videoPrivacyMask)],
          statsQueried := videoGuard (videoAfterTs env ts) }

/-! ### Album handler (`FB_MEDIA_ALBUM`) and tab handler
(`FB_GROUP_MEDIA_TAB`) -/

/-- One album contributor as assembled by `getAlbumDataFromPayloads`. -/
structure Contributor where
  fbid : Option Str
  name : Option Str
  url : Option Str
  profileImg : Option ImageMeta

/-- The partial album record built by `getAlbumDataFromPayloads`. -/
structure AlbumPayloadData where
  title : Option Str
  timestamp : Option Str
  albumId : Option Str
  ownerFbid : Option Str
  ownerName : Option Str
  ownerUsername : Option Str
  ownerType : Option Str
  contributors : Option (List Contributor)
  groupId : Option Str
  commentsCount : Option JNum
  sharesCount : Option JNum
  likesCount : Option JNum
  viewsCount : Option JNum

/-- Results of the album handler's external calls; `container` is the
`getCommonAncestorFromSelector` lookup (`none` models a null node) and
`scrollBatches` the per-tick link batches the page would reveal. -/
structure AlbumEnv where
  pageUrl : Str
  setParam : Option Str
  fbidParam : Option Str
  payloadData : AlbumPayloadData
  metaDescription : Option Str
  timestampRaw : Option Str
  statsDom : StatsDomCtx
  container : Option Unit
  scrollBatches : List (List Str)

/-- The emitted album record (`satisfies FbAlbumPostEntry`). -/
structure AlbumEntry where
  title : Option Str
  timestamp : Option Str
  albumId : Option Str
  ownerFbid : Option Str
  ownerName : Option Str
  ownerUsername : Option Str
  ownerType : Option Str
  contributors : Option (List Contributor)
  groupId : Option Str
  commentsCount : Option JNum
  sharesCount : Option JNum
  likesCount : Option JNum
  viewsCount : Option JNum
  url : Str
  type : Str
  description : Option Str
  itemsCount : ℕ

/-- Observable effects of one album-handler invocation. -/
structure AlbumOutcome where
  pushed : List (AlbumEntry × List FieldPath)
  enqueued : List Str
  errors : ℕ
  statsQueried : Bool

/-- The guard of album stage 4:
`[likesCount, sharesCount, commentsCount, viewsCount].some((d) => d == null)`. -/
def albumStatsGuard (ad : AlbumPayloadData) : Bool :=
  ad.likesCount.isNone || ad.sharesCount.isNone
    || ad.commentsCount.isNone || ad.viewsCount.isNone

/-- Album stage 4 body (DOM stats): fills each stat only when the target
is null. -/
def albumStatsStage (ad : AlbumPayloadData) (st : PostStats) : AlbumPayloadData :=
  let a := if ad.likesCount.isNone then { ad with likesCount := st.likesCount } else ad
  let b := if a.commentsCount.isNone
    then { a with commentsCount := st.commentsCount } else a
  let c := if b.sharesCount.isNone then { b with sharesCount := st.sharesCount } else b
  if c.viewsCount.isNone then { c with viewsCount := st.viewsCount } else c

/-- The album record after the album-ID fallback
(`if (!albumData.albumId) albumData.albumId = set ?? fbid`). -/
def albumAfterId (env : AlbumEnv) : AlbumPayloadData :=
  if strFalsy env.payloadData.albumId then
    { env.payloadData with albumId := match env.setParam with
                                      | some v => some v
                                      | none => env.fbidParam }
  else env.payloadData

/-- The album record with the timestamp-stage result written back. -/
def albumAfterTs (env : AlbumEnv) (ts : Option Str) : AlbumPayloadData :=
  { albumAfterId env with timestamp := ts }

/-- The album record after stage 4 (DOM stats), entered only when the
stage guard fires. -/
def albumAfterStats (env : AlbumEnv) (ts : Option Str) : AlbumPayloadData :=
  if albumStatsGuard (albumAfterTs env ts) then
    albumStatsStage (albumAfterTs env ts) (getPostStats env.statsDom)
  else albumAfterTs env ts

/-- The assembled album entry: the resolved record spread together with
the URL, type tag, description and the final scroll `itemsCount`. -/
def albumEntryOf (env : AlbumEnv) (ts : Option Str) (itemsCount : ℕ) : AlbumEntry :=
  let ad3 := albumAfterStats env ts
  { title := ad3.title
    timestamp := ad3.timestamp
    albumId := ad3.albumId
    ownerFbid := ad3.ownerFbid
    ownerName := ad3.ownerName
    ownerUsername := ad3.ownerUsername
    ownerType := ad3.ownerType
    contributors := ad3.contributors
    groupId := ad3.groupId
    commentsCount := ad3.commentsCount
    sharesCount := ad3.sharesCount
    likesCount := ad3.likesCount
    viewsCount := ad3.viewsCount
    url := env.pageUrl
    type := "album".toList
    description := env.metaDescription
    itemsCount := itemsCount }

/-- Embeds the `FB_MEDIA_ALBUM` handler: payload stage, album-ID fallback
from the `set`/`fbid` search params (`set ?? fbid`, guarded by falsiness of
the current ID), description, timestamp stage (which may throw), DOM-stats
stage, container check — on a null container an error is logged and the
handler returns early, before the scroll and before any `pushData` — then
the infinite scroll and one `pushData` with the album privacy mask,
recording the final `itemsCount` on the entry. -/
def fbMediaAlbumHandler (outputMaxEntries : Option ℕ) (env : AlbumEnv) :
    Except Unit AlbumOutcome :=
  match tsStage (albumAfterId env).timestamp env.timestampRaw with
  | .error e => .error e
  | .ok ts =>
    match env.container with
    | none => .ok { pushed := [], enqueued := [], errors := 1,
                    statsQueried := albumStatsGuard (albumAfterTs env ts) }
    | some _ =>
      let r := runScroll outputMaxEntries env.scrollBatches 0
      .ok { pushed := [(albumEntryOf env ts r.1, albumPrivacyMask)],
            enqueued := r.2.1, errors := 0,
            statsQueried := albumStatsGuard (albumAfterTs env ts) }

/-- Results of the tab handler's external calls (the `groupId`/`tab`
captures are used only in log messages). -/
structure TabEnv where
  pathname : Str
  container : Option Unit
  scrollBatches : List (List Str)

/-- Observable effects of one tab-handler invocation. -/
structure TabOutcome where
  enqueued : List Str
  errors : ℕ
  stopped : Bool
deriving DecidableEq, Repr

/-- Embeds the `FB_GROUP_MEDIA_TAB` handler: container lookup — on a null
container an error is logged and the handler returns early, enqueuing
nothing — then the infinite scroll, enqueuing each tick's links. -/
def fbGroupMediaTabHandler (outputMaxEntries : Option ℕ) (env : TabEnv) : TabOutcome :=
  match env.container with
  | none => { enqueued := [], errors := 1, stopped := false }
  | some _ =>
      let r := runScroll outputMaxEntries env.scrollBatches 0
      { enqueued := r.2.1, errors := 0, stopped := r.2.2 }

/-! ### Concrete environments used by the closed evaluations below -/

/-- A stat DOM context where none of the three stat elements exists. -/
def statsDomEmpty : StatsDomCtx :=
  { likesAria := none, commentTexts := [], containerChildTexts := none }

/-- A stat DOM context whose likes element exists with
`aria-label = "Like: 5 people"`; no comment candidates. -/
def statsDomLikes5 : StatsDomCtx :=
  { likesAria := some (some "Like: 5 people".toList), commentTexts := [],
    containerChildTexts := none }

/-- A photo payload record with every field null. -/
def photoPayloadNone : PhotoPayloadData :=
  { imagePreview := emptyImageMeta, commentsCount := none, likesCount := none,
    sharesCount := none, viewsCount := none, timestamp := none,
    authorName := none, authorFbid := none, authorProfileUrl := none }

/-- A photo-handler environment where every external lookup failed. -/
def envPhotoBase : PhotoEnv :=
  { pageUrl := "https://www.facebook.com/photo/?fbid=1&set=oa.2".toList
    pathname := "/photo/".toList
    setParam := some "oa.2".toList
    fbidParam := some "1".toList
    payloadData := photoPayloadNone
    fullSizeUrl := none
    domPreviewUrl := none
    domPreviewAlt := none
    timestampRaw := none
    statsDom := statsDomEmpty
    metaAuthorName := none
    metaAuthorProfileUrl := none
    metaAuthorImgThumbUrl := none
    metaDescription := none
    fetchImageMeta := fun _ => emptyImageMeta }

/-- Photo environment exhibiting the overwrite: the embedded payload
already produced `likesCount = 10` (and a timestamp), `commentsCount` is
still null, and the DOM stat parse would yield `likesCount = 5`. -/
def envC1 : PhotoEnv :=
  { envPhotoBase with
    payloadData := { photoPayloadNone with
      likesCount := some (some 10)
      timestamp := some "2013-06-24T17:20:00Z".toList }
    statsDom := statsDomLikes5 }

/-- The photo-handler outcome on the all-null environment. -/
def outcomePhotoBase : PhotoOutcome :=
  match fbMediaPhotoHandler envPhotoBase with
  | .ok o => o
  | .error _ => { pushed := [], statsQueried := false }

/-- An album payload record with every field null. -/
def albumPayloadNone : AlbumPayloadData :=
  { title := none, timestamp := none, albumId := none, ownerFbid := none,
    ownerName := none, ownerUsername := none, ownerType := none,
    contributors := none, groupId := none, commentsCount := none,
    sharesCount := none, likesCount := none, viewsCount := none }

/-- An album-handler environment whose scroll-container lookup failed. -/
def envAlbumNoContainer : AlbumEnv :=
  { pageUrl := "https://www.facebook.com/media/set/?set=oa.2".toList
    setParam := some "oa.2".toList
    fbidParam := none
    payloadData := albumPayloadNone
    metaDescription := none
    timestampRaw := none
    statsDom := statsDomEmpty
    container := none
    scrollBatches := [] }

/-- A tab-handler environment whose scroll-container lookup failed. -/
def envTabNoContainer : TabEnv :=
  { pathname := "/groups/123/media/photos".toList
    container := none
    scrollBatches := [] }

/-- The album-handler outcome on `envAlbumNoContainer`. -/
def outcomeAlbumNoContainer : AlbumOutcome :=
  match fbMediaAlbumHandler none envAlbumNoContainer with
  | .ok o => o
  | .error _ => { pushed := [], enqueued := [], errors := 0, statsQueried := false }

/-- A video payload record with every field null. -/
def videoPayloadNone : VideoPayloadData :=
  { fbid := none, albumId := none, groupId := none, userId := none,
    videoId := none, timestamp := none, videoUrl := none, videoTitle := none,
    videoHeight := none, videoWidth := none, videoDuration := none,
    videoThumbImage := emptyImageMeta, authorFbid := none, authorName := none,
    authorProfileUrl := none, authorProfileImageThumb := emptyImageMeta,
    commentsCount := none, viewsCount := none, likesCount := none,
    sharesCount := none, postedToEntityFbid := none,
    postedToEntityName := none, postedToEntityUrl := none }

/-- A video-handler environment where every external lookup failed. -/
def envVideoBase : VideoEnv :=
  { pageUrl := "https://www.facebook.com/jane.doe/videos/555/".toList
    pathname := "/jane.doe/videos/555/".toList
    setParam := none
    fbidParam := none
    payloadData := videoPayloadNone
    domVideoUrl := none
    domVideoDuration := none
    domVideoHeight := none
    domVideoWidth := none
    domThumbUrl := none
    domThumbAlt := none
    timestampRaw := none
    statsDom := statsDomEmpty
    metaAuthorName := none
    metaAuthorProfileUrl := none
    metaAuthorImgThumbUrl := none
    metaDescription := none
    fetchImageMeta := fun _ => emptyImageMeta }

/-- Video environment where the embedded payload supplied all four video
fields (so the stage-6 guard is false) and no stats, while the DOM stat
parse would yield `likesCount = 5`. -/
def envC10 : VideoEnv :=
  { envVideoBase with
    payloadData := { videoPayloadNone with
      videoUrl := some "v".toList
      videoDuration := some (some 1)
      videoHeight := some (some 2)
      videoWidth := some (some 3)
      timestamp := some "2013-06-24T17:20:00Z".toList }
    statsDom := statsDomLikes5 }

/-- The video-handler outcome on `envC10`. -/
def outcomeC10 : VideoOutcome :=
  match fbMediaVideoHandler envC10 with
  | .ok o => o
  | .error _ => { pushed := [], statsQueried := true }

/-! ### Helper lemmas about the matchers -/

theorem dropLit_append (lit r : Str) : dropLit lit (lit ++ r) = some r := by
  induction lit with
  | nil => rfl
  | cons c cs ih => simp [dropLit, ih]

theorem takeWhile_append_all (p : Char → Bool) (l r : Str)
    (hl : ∀ c ∈ l, p c = true)
    (hr : ∀ c ∈ r.head?, p c = false) :
    (l ++ r).takeWhile p = l ∧ (l ++ r).dropWhile p = r := by
  induction l with
  | nil =>
    simp only [List.nil_append]
    cases r with
    | nil => simp
    | cons c cs =>
      have hc : p c = false := hr c (by simp)
      simp [List.takeWhile_cons, List.dropWhile_cons, hc]
  | cons c cs ih =>
    have hc : p c = true := hl c (by simp)
    have ih2 := ih (fun x hx => hl x (by simp [hx]))
    simp [List.takeWhile_cons, List.dropWhile_cons, hc, ih2.1, ih2.2]

theorem takeWhile_all (p : Char → Bool) (l : Str) (hl : ∀ c ∈ l, p c = true) :
    l.takeWhile p = l ∧ l.dropWhile p = [] := by
  have h := takeWhile_append_all p l [] hl (by simp)
  simpa using h

/-- **C2** — The URL router evaluates its fixed ordered matcher list top to
bottom and dispatches on the first match only.  For every URL whose path is
`/groups/<id>/media/<tab>` (with nonempty alphanumeric `<id>`, `<tab>`), the
result is `FB_GROUP_MEDIA_TAB` with captures `groupId = <id>` and
`tab = <tab>`, never `FB_GROUP_MEDIA` (whose matcher rejects such a path),
even though the broader `FB_GROUP` pattern also fires; a URL matching no
pattern is not handled (`findRoute` returns `none`). -/
theorem claim_C2 (gid tab : Str)
    (hg : gid ≠ []) (ht : tab ≠ [])
    (hga : ∀ c ∈ gid, isAlnum c = true) (hta : ∀ c ∈ tab, isAlnum c = true) :
    findRoute ("/groups/".toList ++ gid ++ "/media/".toList ++ tab)
        = some RouteLabel.FB_GROUP_MEDIA_TAB
    ∧ fbGroupMediaTabMatch ("/groups/".toList ++ gid ++ "/media/".toList ++ tab)
        = some (gid, tab)
    ∧ fbGroupMediaMatch ("/groups/".toList ++ gid ++ "/media/".toList ++ tab) = none
    ∧ (fbGroupMatch ("/groups/".toList ++ gid ++ "/media/".toList ++ tab)).isSome = true
    ∧ (∀ q : Str, (∀ l ∈ routes, routeMatchFn l q = false) → findRoute q = none) := by
  have hhead : ∀ c ∈ (("/media/".toList ++ tab)).head?, isAlnum c = false := by
    intro c hc
    have h7 : (("/media/".toList ++ tab)).head? = some '/' := rfl
    rw [h7] at hc
    simp only [Option.mem_def, Option.some.injEq] at hc
    subst hc
    decide
  have hassoc : "/groups/".toList ++ gid ++ "/media/".toList ++ tab
      = "/groups/".toList ++ (gid ++ ("/media/".toList ++ tab)) := by
    simp [List.append_assoc]
  have hdl1 : dropLit "/groups/".toList
      ("/groups/".toList ++ (gid ++ ("/media/".toList ++ tab)))
      = some (gid ++ ("/media/".toList ++ tab)) := dropLit_append _ _
  have htw := takeWhile_append_all isAlnum gid ("/media/".toList ++ tab) hga hhead
  have hdl2 : dropLit "/media/".toList ("/media/".toList ++ tab) = some tab :=
    dropLit_append _ _
  have htw2 := takeWhile_all isAlnum tab hta
  have htab : fbGroupMediaTabMatch ("/groups/".toList ++ gid ++ "/media/".toList ++ tab)
      = some (gid, tab) := by
    rw [hassoc]
    unfold fbGroupMediaTabMatch
    rw [hdl1, Option.some_bind]
    simp only [htw.1, htw.2, if_neg hg, hdl2, Option.some_bind, htw2.1, htw2.2,
      if_neg ht]
    simp
  have hmedia : fbGroupMediaMatch ("/groups/".toList ++ gid ++ "/media/".toList ++ tab)
      = none := by
    rw [hassoc]
    unfold fbGroupMediaMatch
    rw [hdl1, Option.some_bind]
    simp only [htw.1, htw.2, if_neg hg]
    have htl : 1 ≤ tab.length := by
      cases tab with
      | nil => exact absurd rfl ht
      | cons c cs => simp
    have hlen7 : ("/media/".toList : Str).length = 7 := rfl
    have hlen6 : ("/media".toList : Str).length = 6 := rfl
    have h1 : "/media/".toList ++ tab ≠ "/media".toList := by
      intro h
      have hx := congrArg List.length h
      rw [List.length_append, hlen7, hlen6] at hx
      omega
    have h2 : "/media/".toList ++ tab ≠ "/media/".toList := by
      intro h
      have hx := congrArg List.length h
      rw [List.length_append, hlen7] at hx
      omega
    rw [if_neg (by push_neg; exact ⟨h1, h2⟩)]
  have hgrp : (fbGroupMatch ("/groups/".toList ++ gid ++ "/media/".toList ++ tab)).isSome
      = true := by
    rw [hassoc]
    unfold fbGroupMatch
    rw [hdl1, Option.some_bind]
    simp only [htw.1, htw.2, if_neg hg]
    have hes : endOrSlash ("/media/".toList ++ tab) = true := by
      unfold endOrSlash
      have h7 : (("/media/".toList ++ tab)).head? = some '/' := rfl
      rw [h7]
      simp
    rw [if_pos hes]
    rfl
  refine ⟨?_, htab, hmedia, hgrp, ?_⟩
  · unfold findRoute routes
    rw [List.find?_cons_of_pos]
    show routeMatchFn RouteLabel.FB_GROUP_MEDIA_TAB _ = true
    simp only [routeMatchFn, htab, Option.isSome_some]
  · intro q hq
    exact List.find?_eq_none.mpr fun l hl => by simp [hq l hl]

/-- Witness for C2 at the spec example path `/groups/123/media/photos`. -/
theorem claim_C2_witness :
    findRoute "/groups/123/media/photos".toList = some RouteLabel.FB_GROUP_MEDIA_TAB
    ∧ fbGroupMediaTabMatch "/groups/123/media/photos".toList
        = some ("123".toList, "photos".toList) := by
  have h := claim_C2 "123".toList "photos".toList (by decide) (by decide)
    (by decide) (by decide)
  have hp : "/groups/".toList ++ "123".toList ++ "/media/".toList ++ "photos".toList
      = "/groups/123/media/photos".toList := by decide
  rw [hp] at h
  exact ⟨h.1, h.2.1⟩

/-! ### Timestamp Parser claims -/

/-- **C3** (amended) — When the timestamp regex does not match the
normalised input, `parseFBTimestamp` does not return a null-equivalent:
the destructured captures are all `undefined`, the subsequent
`parseDate`/`formatDate`/`.toLowerCase()` calls throw, and nothing catches
the exception, so it propagates to the caller (modelled as
`Except.error ()`). -/
theorem claim_C3 (s : Str)
    (h : matchTimestampDatetime (normTimestamp s) = none) :
    parseFBTimestamp s = Except.error () := by
  unfold parseFBTimestamp
  rw [h]

/-- Counterexample to C3 as stated: on the non-matching input `"hello"`
the parser throws (`Except.error`), it does not return a null-equivalent
value. -/
theorem claim_C3_counterexample :
    parseFBTimestamp "hello".toList = Except.error () := rfl

/-- Witness for C3 at the non-matching input `"not a timestamp!"`. -/
theorem claim_C3_witness :
    matchTimestampDatetime (normTimestamp "not a timestamp!".toList) = none
    ∧ parseFBTimestamp "not a timestamp!".toList = Except.error () := by
  have h1 : matchTimestampDatetime (normTimestamp "not a timestamp!".toList) = none := rfl
  exact ⟨h1, claim_C3 "not a timestamp!".toList h1⟩

/-- **C4** — On the exact input `"Monday, June 24, 2013 at 5:20 PM"` the
parser does return year 2013, month 06, day 24 and hour 17 (5 PM + 12),
but the separators in the output are U+2010 HYPHEN characters (the
template literal in the source contains U+2010, bytes `e2 80 90`), not the
ASCII hyphen-minus the claim (and the function's own doc comment)
specifies — the output is NOT the ASCII string `"2013-06-24T17:20:00Z"`. -/
theorem claim_C4 :
    parseFBTimestamp "Monday, June 24, 2013 at 5:20 PM".toList
      = Except.ok ("2013".toList ++ [tsHyphen] ++ "06".toList ++ [tsHyphen]
          ++ "24T17:20:00Z".toList)
    ∧ ("2013".toList ++ [tsHyphen] ++ "06".toList ++ [tsHyphen]
          ++ "24T17:20:00Z".toList) ≠ "2013-06-24T17:20:00Z".toList := by
  refine ⟨rfl, by decide⟩

/-! ### Stat Parser claims -/

/-- **C5** (amended) — In `getPostStats` the three stats are independently
optional, but an absent element yields a NULL count for likes and
comments (not zero — zero arises only when the element exists and its
regex yields no digits); an absent views element (or a failed
common-ancestor lookup) yields a null `viewsCount`; and `sharesCount` is
null on every invocation. -/
theorem claim_C5 (dom : StatsDomCtx) :
    (dom.likesAria = none → (getPostStats dom).likesCount = none)
    ∧ ((∀ t ∈ dom.commentTexts, commentTest t = false) →
        (getPostStats dom).commentsCount = none)
    ∧ (∀ kids, dom.containerChildTexts = some kids →
        (∀ t ∈ kids, viewsTest t = false) → (getPostStats dom).viewsCount = none)
    ∧ (dom.containerChildTexts = none → (getPostStats dom).viewsCount = none)
    ∧ (getPostStats dom).sharesCount = none := by
  unfold getPostStats
  refine ⟨?_, ?_, ?_, ?_, rfl⟩
  · intro h
    rw [h]
  · intro h
    have hf : dom.commentTexts.find? commentTest = none :=
      List.find?_eq_none.mpr fun t ht => by simp [h t ht]
    rw [hf]
  · intro kids hk h
    have hf : kids.find? viewsTest = none :=
      List.find?_eq_none.mpr fun t ht => by simp [h t ht]
    cases hLA : dom.likesAria with
    | none => rfl
    | some aria =>
        cases hCF : dom.commentTexts.find? commentTest with
        | none => rfl
        | some t =>
            rw [hk]
            simp [hf]
  · intro h
    cases hLA : dom.likesAria with
    | none => rfl
    | some aria =>
        cases hCF : dom.commentTexts.find? commentTest with
        | none => rfl
        | some t =>
            rw [h]

/-- Counterexample to C5 as stated: with no likes element and no comment
candidates, `getPostStats` returns null likes/comments counts — not the
zero the claim specifies. -/
theorem claim_C5_counterexample :
    (getPostStats statsDomEmpty).likesCount = none
    ∧ (getPostStats statsDomEmpty).likesCount ≠ some (some 0)
    ∧ (getPostStats statsDomEmpty).commentsCount = none
    ∧ (getPostStats statsDomEmpty).commentsCount ≠ some (some 0) := by
  refine ⟨rfl, by decide, rfl, by decide⟩

/-- Witness for C5 on the empty DOM context. -/
theorem claim_C5_witness :
    (getPostStats statsDomEmpty).likesCount = none
    ∧ (getPostStats statsDomEmpty).viewsCount = none
    ∧ (getPostStats statsDomEmpty).sharesCount = none := by
  have h := claim_C5 statsDomEmpty
  exact ⟨h.1 rfl, h.2.2.2.1 rfl, h.2.2.2.2⟩

/-! ### Infinite-scroll claims -/

theorem runScroll_none_no_stop : ∀ (bs : List (List Str)) (c : ℕ),
    (runScroll none bs c).2.2 = false := by
  intro bs
  induction bs with
  | nil => intro c; rfl
  | cons b t ih =>
      intro c
      simp only [runScroll, scrollTickStop]
      exact ih (c + b.length)

theorem runScroll_stop_iff (m : ℕ) : ∀ (bs : List (List Str)) (c : ℕ), c ≤ m →
    ((runScroll (some m) bs c).2.2 = true ↔ m < c + (bs.map List.length).sum) := by
  intro bs
  induction bs with
  | nil =>
      intro c hc
      simp only [runScroll, List.map_nil, List.sum_nil]
      constructor
      · intro h
        exact absurd h (by simp)
      · omega
  | cons b t ih =>
      intro c hc
      cases hstop : scrollTickStop (some m) (c + b.length) with
      | true =>
          have hm : m < c + b.length := by simpa [scrollTickStop] using hstop
          simp [runScroll, hstop]
          omega
      | false =>
          have hm : ¬ m < c + b.length := by simpa [scrollTickStop] using hstop
          have h2 := ih (c + b.length) (by omega)
          simp [runScroll, hstop, h2]
          omega

theorem runScroll_stopped_exceeds (m : ℕ) : ∀ (bs : List (List Str)) (c : ℕ),
    (runScroll (some m) bs c).2.2 = true → m < (runScroll (some m) bs c).1 := by
  intro bs
  induction bs with
  | nil =>
      intro c h
      exact absurd h (by simp [runScroll])
  | cons b t ih =>
      intro c h
      cases hstop : scrollTickStop (some m) (c + b.length) with
      | true =>
          have hm : m < c + b.length := by simpa [scrollTickStop] using hstop
          simp [runScroll, hstop]
          omega
      | false =>
          simp only [runScroll, hstop] at h ⊢
          simp at h ⊢
          exact ih (c + b.length) h

theorem runScroll_count (maxE : Option ℕ) : ∀ (bs : List (List Str)) (c : ℕ),
    (runScroll maxE bs c).1 = c + (runScroll maxE bs c).2.1.length := by
  intro bs
  induction bs with
  | nil => intro c; simp [runScroll]
  | cons b t ih =>
      intro c
      cases hstop : scrollTickStop maxE (c + b.length) with
      | true => simp [runScroll, hstop]
      | false =>
          have := ih (c + b.length)
          simp [runScroll, hstop, List.length_append]
          omega

/-- **C6** — During a pagination run (the scroll-tick callback shared by
the tab and album handlers), with a non-null `outputMaxEntries = m` and a
tick total not already past `m`: `stopFn` is invoked at the end of a tick
iff the running total of enqueued links strictly exceeds `m` (per-tick
condition `m < itemsCount`, third conjunct); the run stops iff the overall
total would exceed `m` (first); when it stops the final count strictly
exceeds `m` — never before (second); a null `outputMaxEntries` never
stops (fourth); and the running total counts exactly the enqueued links
(fifth). -/
theorem claim_C6 (m c : ℕ) (bs : List (List Str)) (hc : c ≤ m) :
    ((runScroll (some m) bs c).2.2 = true ↔ m < c + (bs.map List.length).sum)
    ∧ ((runScroll (some m) bs c).2.2 = true → m < (runScroll (some m) bs c).1)
    ∧ (∀ k, scrollTickStop (some m) k = true ↔ m < k)
    ∧ (∀ (bs2 : List (List Str)) (c2 : ℕ),
        scrollTickStop none c2 = false ∧ (runScroll none bs2 c2).2.2 = false)
    ∧ (runScroll (some m) bs c).1 = c + (runScroll (some m) bs c).2.1.length := by
  refine ⟨runScroll_stop_iff m bs c hc, runScroll_stopped_exceeds m bs c, ?_, ?_, ?_⟩
  · intro k
    simp [scrollTickStop]
  · intro bs2 c2
    exact ⟨rfl, runScroll_none_no_stop bs2 c2⟩
  · exact runScroll_count (some m) bs c

/-- Witness for C6: with `outputMaxEntries = 10` and tick batches of 8 and
5 links, the run stops and the final count 13 strictly exceeds 10. -/
theorem claim_C6_witness :
    (runScroll (some 10) [List.replicate 8 "u".toList, List.replicate 5 "u".toList] 0).2.2
      = true
    ∧ 10 < (runScroll (some 10)
        [List.replicate 8 "u".toList, List.replicate 5 "u".toList] 0).1 := by
  have h := claim_C6 10 0 [List.replicate 8 "u".toList, List.replicate 5 "u".toList]
    (by decide)
  have hs := h.1.mpr (by decide)
  exact ⟨hs, h.2.1 hs⟩

/-! ### Payload-search walk claims -/

theorem sum_map_sizeOf_lt (l : List JVal) : (l.map sizeOf).sum < sizeOf l := by
  induction l with
  | nil => simp
  | cons a t ih =>
      simp only [List.map_cons, List.sum_cons]
      have hs : sizeOf (a :: t) = 1 + sizeOf a + sizeOf t := rfl
      omega

theorem sum_map_sizeOf_fields_lt (fs : List (Str × JVal)) :
    ((fs.map Prod.snd).map sizeOf).sum < sizeOf fs := by
  induction fs with
  | nil => simp
  | cons a t ih =>
      simp only [List.map_cons, List.sum_cons]
      have h1 : sizeOf (a :: t) = 1 + sizeOf a + sizeOf t := rfl
      have h2 : sizeOf a = 1 + sizeOf a.1 + sizeOf a.2 := rfl
      omega

theorem children_sizeOf_lt (v : JVal) : (v.children.map sizeOf).sum < sizeOf v := by
  cases v with
  | jnull => simp [JVal.children]
  | jbool b => simp [JVal.children]
  | jnum q => simp [JVal.children]
  | jstr s => simp [JVal.children]
  | jarr items =>
      have h1 := sum_map_sizeOf_lt items
      simp only [JVal.children, JVal.jarr.sizeOf_spec]
      omega
  | jobj fields =>
      have h1 := sum_map_sizeOf_fields_lt fields
      simp only [JVal.children, JVal.jobj.sizeOf_spec]
      omega

theorem subtreeMList_append (l1 l2 : List JVal) :
    subtreeMList (l1 ++ l2) = subtreeMList l1 + subtreeMList l2 := by
  induction l1 with
  | nil => simp [subtreeMList]
  | cons v t ih =>
      simp [subtreeMList, ih, add_assoc]

theorem subtreeMList_reverse (l : List JVal) :
    subtreeMList l.reverse = subtreeMList l := by
  induction l with
  | nil => rfl
  | cons v t ih =>
      rw [List.reverse_cons, subtreeMList_append, ih]
      simp only [subtreeMList]
      rw [add_zero, add_comm]

theorem subtreeMFields_eq (fs : List (Str × JVal)) :
    subtreeMFields fs = subtreeMList (fs.map Prod.snd) := by
  induction fs with
  | nil => rfl
  | cons f t ih =>
      simp only [List.map_cons, subtreeMFields, subtreeMList, ih]

theorem subtreeM_eq_cons_children (v : JVal) :
    JVal.subtreeM v = v ::ₘ subtreeMList v.children := by
  cases v with
  | jnull => rfl
  | jbool b => rfl
  | jnum q => rfl
  | jstr s => rfl
  | jarr items => rfl
  | jobj fields =>
      simp only [JVal.subtreeM, JVal.children, subtreeMFields_eq]

theorem walkLoop_spec (filterFn : JVal → Bool) :
    ∀ (n : ℕ) (queue results : List JVal), (queue.map sizeOf).sum ≤ n →
    (walkLoop filterFn queue results : Multiset JVal)
      = (results : Multiset JVal)
        + (subtreeMList queue).filter (fun v => filterFn v = true) := by
  intro n
  induction n using Nat.strong_induction_on with
  | _ n ih =>
    intro queue results hle
    match queue with
    | [] => simp [walkLoop, subtreeMList]
    | curr :: qs =>
      have hch := children_sizeOf_lt curr
      have hsum : ((curr.children.reverse ++ qs).map sizeOf).sum
          < ((curr :: qs).map sizeOf).sum := by
        simp only [List.map_append, List.sum_append, List.map_cons, List.sum_cons,
          List.map_reverse, List.sum_reverse]
        omega
      have hrec := ih (((curr.children.reverse ++ qs).map sizeOf).sum)
        (by omega) (curr.children.reverse ++ qs)
        (if filterFn curr then results ++ [curr] else results) le_rfl
      simp only [walkLoop]
      rw [hrec, subtreeMList_append, subtreeMList_reverse]
      have hsplit : subtreeMList (curr :: qs)
          = (curr ::ₘ subtreeMList curr.children) + subtreeMList qs := by
        simp only [subtreeMList, subtreeM_eq_cons_children]
      rw [hsplit, Multiset.filter_add, Multiset.filter_add, Multiset.filter_cons]
      cases hf : filterFn curr with
      | true =>
          simp [hf]
          rw [← Multiset.singleton_add]
          rw [show ((results ++ [curr] : List JVal) : Multiset JVal)
              = (results : Multiset JVal) + {curr} by
            rw [← Multiset.coe_singleton, ← Multiset.coe_add]]
          abel
      | false =>
          simp [hf]

/-- **C8** — For every finite (acyclic by construction) input value and
every predicate, the `walkFilter` worklist walk terminates (it is a total
function) and returns exactly the nested sub-values — reached through
array items and object values, the root included — accepted by the
predicate: as multisets, its result equals the filtered sub-value multiset,
so no matching node is missed and no non-matching node is included,
independently of the traversal order. -/
theorem claim_C8 (d : JVal) (filterFn : JVal → Bool) :
    (walkFilter d filterFn : Multiset JVal)
      = (JVal.subtreeM d).filter (fun v => filterFn v = true) := by
  have h := walkLoop_spec filterFn (([d].map sizeOf).sum) [d] [] le_rfl
  simp only [walkFilter] at h ⊢
  rw [h]
  simp [subtreeMList]

/-! ### Route-handler claims -/

/-- **C1** — The first-successful-source invariant FAILS in the photo
handler: with `likesCount = 10` already set by the embedded-payload stage
and `commentsCount` still null, the stage-5 guard fires and the DOM stat
value 5 OVERWRITES the payload value, because the stage guards on the
incoming value (`if (likesCount != null)`) instead of the target field —
unlike the video and album handlers, which guard with
`if (videoData.likesCount == null)`.  The emitted record carries
`likesCount = 5`, not the payload's 10. -/
theorem claim_C1 :
    envC1.payloadData.likesCount = some (some 10)
    ∧ (getPostStats envC1.statsDom).likesCount = some (some 5)
    ∧ (fbMediaPhotoHandler envC1).toOption.map
        (fun o => o.pushed.map fun p => p.1.likesCount)
      = some [some (some 5)] := by
  refine ⟨rfl, by decide, by decide⟩

/-- **C7** — When the common-ancestor scroll-container lookup yields no
node, the handler logs an error and returns early: the album handler (when
it reaches the check, i.e. the timestamp stage did not throw) emits no
album record, enqueues nothing and logs one error; the tab handler
likewise enqueues nothing and logs one error. -/
theorem claim_C7 (maxE : Option ℕ) (envA : AlbumEnv) (envT : TabEnv)
    (hA : envA.container = none) (hT : envT.container = none)
    (o : AlbumOutcome) (hok : fbMediaAlbumHandler maxE envA = Except.ok o) :
    o.pushed = [] ∧ o.enqueued = [] ∧ o.errors = 1
    ∧ fbGroupMediaTabHandler maxE envT
        = { enqueued := [], errors := 1, stopped := false } := by
  have htab : fbGroupMediaTabHandler maxE envT
      = { enqueued := [], errors := 1, stopped := false } := by
    unfold fbGroupMediaTabHandler
    rw [hT]
  simp only [fbMediaAlbumHandler, hA] at hok
  split at hok
  · exact absurd hok (by simp)
  · simp only [Except.ok.injEq] at hok
    subst hok
    exact ⟨rfl, rfl, rfl, htab⟩

/-- Witness for C7 on environments whose container lookup failed. -/
theorem claim_C7_witness :
    outcomeAlbumNoContainer.pushed = [] ∧ outcomeAlbumNoContainer.enqueued = []
    ∧ outcomeAlbumNoContainer.errors = 1
    ∧ fbGroupMediaTabHandler none envTabNoContainer
        = { enqueued := [], errors := 1, stopped := false } :=
  claim_C7 none envAlbumNoContainer envTabNoContainer rfl rfl
    outcomeAlbumNoContainer rfl

/-- **C9** — Every record any handler pushes to the dataset sink carries
exactly the privacy mask of its entity type, and the masks mark exactly
the identity fields: photo — `authorName`, `authorProfileUrl`,
`authorProfileImageThumb.url`; video — additionally `userId`; album —
`ownerFbid`, `ownerName`, `ownerUsername`, `ownerType`, `contributors`;
no other field (in particular not `likesCount`) is marked. -/
theorem claim_C9 :
    (∀ (env : PhotoEnv) (o : PhotoOutcome), fbMediaPhotoHandler env = Except.ok o →
      ∀ p ∈ o.pushed, p.2 = photoPrivacyMask)
    ∧ (∀ (env : VideoEnv) (o : VideoOutcome), fbMediaVideoHandler env = Except.ok o →
      ∀ p ∈ o.pushed, p.2 = videoPrivacyMask)
    ∧ (∀ (maxE : Option ℕ) (env : AlbumEnv) (o : AlbumOutcome),
        fbMediaAlbumHandler maxE env = Except.ok o →
        ∀ p ∈ o.pushed, p.2 = albumPrivacyMask)
    ∧ photoPrivacyMask
        = [["authorName"], ["authorProfileUrl"], ["authorProfileImageThumb", "url"]]
    ∧ videoPrivacyMask
        = [["userId"], ["authorName"], ["authorProfileUrl"],
           ["authorProfileImageThumb", "url"]]
    ∧ albumPrivacyMask
        = [["ownerFbid"], ["ownerName"], ["ownerUsername"], ["ownerType"],
           ["contributors"]]
    ∧ (["likesCount"] : FieldPath) ∉ photoPrivacyMask
    ∧ (["likesCount"] : FieldPath) ∉ videoPrivacyMask
    ∧ (["likesCount"] : FieldPath) ∉ albumPrivacyMask := by
  refine ⟨?_, ?_, ?_, rfl, rfl, rfl, by decide, by decide, by decide⟩
  · intro env o hok p hp
    simp only [fbMediaPhotoHandler] at hok
    split at hok
    · exact absurd hok (by simp)
    · simp only [Except.ok.injEq] at hok
      subst hok
      simp only [List.mem_singleton] at hp
      subst hp
      rfl
  · intro env o hok p hp
    unfold fbMediaVideoHandler at hok
    split at hok
    · exact absurd hok (by simp)
    · simp only [Except.ok.injEq] at hok
      subst hok
      simp only [List.mem_singleton] at hp
      subst hp
      rfl
  · intro maxE env o hok p hp
    unfold fbMediaAlbumHandler at hok
    split at hok
    · exact absurd hok (by simp)
    · split at hok
      · simp only [Except.ok.injEq] at hok
        subst hok
        simp at hp
      · simp only [Except.ok.injEq] at hok
        subst hok
        simp only [List.mem_singleton] at hp
        subst hp
        rfl

/-- Witness for C9: the photo handler on the all-null environment pushes
its record with the photo privacy mask. -/
theorem claim_C9_witness :
    ∀ p ∈ outcomePhotoBase.pushed, p.2 = photoPrivacyMask :=
  claim_C9.1 envPhotoBase outcomePhotoBase rfl

theorem videoThumbStage_fields (vd : VideoPayloadData) (env : VideoEnv) :
    (videoThumbStage vd env).videoUrl = vd.videoUrl
    ∧ (videoThumbStage vd env).videoDuration = vd.videoDuration
    ∧ (videoThumbStage vd env).videoHeight = vd.videoHeight
    ∧ (videoThumbStage vd env).videoWidth = vd.videoWidth
    ∧ (videoThumbStage vd env).likesCount = vd.likesCount
    ∧ (videoThumbStage vd env).commentsCount = vd.commentsCount
    ∧ (videoThumbStage vd env).sharesCount = vd.sharesCount
    ∧ (videoThumbStage vd env).viewsCount = vd.viewsCount := by
  unfold videoThumbStage
  split
  · exact ⟨rfl, rfl, rfl, rfl, rfl, rfl, rfl, rfl⟩
  · exact ⟨rfl, rfl, rfl, rfl, rfl, rfl, rfl, rfl⟩

theorem videoGuard_set_ts (vd : VideoPayloadData) (ts : Option Str) :
    videoGuard { vd with timestamp := ts } = videoGuard vd := rfl

theorem videoGuard_thumb (vd : VideoPayloadData) (env : VideoEnv) :
    videoGuard (videoThumbStage vd env) = videoGuard vd := by
  have h := videoThumbStage_fields vd env
  simp only [videoGuard, h.1, h.2.1, h.2.2.1, h.2.2.2.1]

theorem videoUrlDataStage_stats (vd : VideoPayloadData) (env : VideoEnv) :
    (videoUrlDataStage vd env).likesCount = vd.likesCount
    ∧ (videoUrlDataStage vd env).commentsCount = vd.commentsCount
    ∧ (videoUrlDataStage vd env).sharesCount = vd.sharesCount
    ∧ (videoUrlDataStage vd env).viewsCount = vd.viewsCount := by
  unfold videoUrlDataStage
  refine ⟨?_, ?_, ?_, ?_⟩ <;>
    simp only [apply_ite VideoPayloadData.likesCount,
      apply_ite VideoPayloadData.commentsCount,
      apply_ite VideoPayloadData.sharesCount,
      apply_ite VideoPayloadData.viewsCount, ite_self]

theorem videoVideoStage_stats (vd : VideoPayloadData) (env : VideoEnv) :
    (videoVideoStage vd env).likesCount = vd.likesCount
    ∧ (videoVideoStage vd env).commentsCount = vd.commentsCount
    ∧ (videoVideoStage vd env).sharesCount = vd.sharesCount
    ∧ (videoVideoStage vd env).viewsCount = vd.viewsCount := by
  unfold videoVideoStage
  refine ⟨?_, ?_, ?_, ?_⟩ <;>
    simp only [apply_ite VideoPayloadData.likesCount,
      apply_ite VideoPayloadData.commentsCount,
      apply_ite VideoPayloadData.sharesCount,
      apply_ite VideoPayloadData.viewsCount, ite_self]

theorem videoAfterVideo_stats (env : VideoEnv) :
    (videoAfterVideo env).likesCount = env.payloadData.likesCount
    ∧ (videoAfterVideo env).commentsCount = env.payloadData.commentsCount
    ∧ (videoAfterVideo env).sharesCount = env.payloadData.sharesCount
    ∧ (videoAfterVideo env).viewsCount = env.payloadData.viewsCount := by
  unfold videoAfterVideo
  have h1 := videoUrlDataStage_stats env.payloadData env
  have h2 := videoVideoStage_stats (videoUrlDataStage env.payloadData env) env
  exact ⟨h2.1.trans h1.1, h2.2.1.trans h1.2.1, h2.2.2.1.trans h1.2.2.1,
    h2.2.2.2.trans h1.2.2.2⟩

theorem videoAfterTs_stats (env : VideoEnv) (ts : Option Str) :
    (videoAfterTs env ts).likesCount = env.payloadData.likesCount
    ∧ (videoAfterTs env ts).commentsCount = env.payloadData.commentsCount
    ∧ (videoAfterTs env ts).sharesCount = env.payloadData.sharesCount
    ∧ (videoAfterTs env ts).viewsCount = env.payloadData.viewsCount := by
  have hts := videoThumbStage_fields (videoAfterVideo env) env
  have hvs := videoAfterVideo_stats env
  unfold videoAfterTs videoAfterThumb
  exact ⟨hts.2.2.2.2.1.trans hvs.1, hts.2.2.2.2.2.1.trans hvs.2.1,
    hts.2.2.2.2.2.2.1.trans hvs.2.2.1, hts.2.2.2.2.2.2.2.trans hvs.2.2.2⟩

theorem videoEntryOf_stats_skip (env : VideoEnv) (ts : Option Str)
    (h : videoGuard (videoAfterTs env ts) = false) :
    (videoEntryOf env ts).likesCount = env.payloadData.likesCount
    ∧ (videoEntryOf env ts).commentsCount = env.payloadData.commentsCount
    ∧ (videoEntryOf env ts).sharesCount = env.payloadData.sharesCount
    ∧ (videoEntryOf env ts).viewsCount = env.payloadData.viewsCount := by
  have hbase := videoAfterTs_stats env ts
  have hskip : videoAfterStats env ts = videoAfterTs env ts := by
    unfold videoAfterStats
    rw [h]
    simp
  unfold videoEntryOf videoFinal
  rw [hskip]
  refine ⟨?_, ?_, ?_, ?_⟩
  · simp only [apply_ite VideoPayloadData.likesCount, ite_self]
    exact hbase.1
  · simp only [apply_ite VideoPayloadData.commentsCount, ite_self]
    exact hbase.2.1
  · simp only [apply_ite VideoPayloadData.sharesCount, ite_self]
    exact hbase.2.2.1
  · simp only [apply_ite VideoPayloadData.viewsCount, ite_self]
    exact hbase.2.2.2

/-- **C10** — In the video handler, the DOM stats-extraction stage runs if
and only if at least one of `videoUrl`, `videoDuration`, `videoHeight`,
`videoWidth` is null at the time of the check (their state after the
URL-data and video stages; the thumb and timestamp stages do not touch
them).  The nullness of the stat fields themselves never triggers it: when
the stage is skipped the emitted record carries exactly the payload
stage's stat values — all four may be null even though DOM stats were
extractable. -/
theorem claim_C10 (env : VideoEnv) (o : VideoOutcome)
    (hok : fbMediaVideoHandler env = Except.ok o) :
    (o.statsQueried = true ↔
      ((videoAfterVideo env).videoUrl = none
        ∨ (videoAfterVideo env).videoDuration = none
        ∨ (videoAfterVideo env).videoHeight = none
        ∨ (videoAfterVideo env).videoWidth = none))
    ∧ (o.statsQueried = false → ∀ p ∈ o.pushed,
        p.1.likesCount = env.payloadData.likesCount
        ∧ p.1.commentsCount = env.payloadData.commentsCount
        ∧ p.1.sharesCount = env.payloadData.sharesCount
        ∧ p.1.viewsCount = env.payloadData.viewsCount) := by
  unfold fbMediaVideoHandler at hok
  split at hok
  · exact absurd hok (by simp)
  · rename_i x ts heq
    simp only [Except.ok.injEq] at hok
    subst hok
    have hg : videoGuard (videoAfterTs env ts) = videoGuard (videoAfterVideo env) := by
      unfold videoAfterTs
      rw [videoGuard_set_ts]
      unfold videoAfterThumb
      exact videoGuard_thumb (videoAfterVideo env) env
    constructor
    · show videoGuard (videoAfterTs env ts) = true ↔ _
      rw [hg]
      simp [videoGuard, Option.isNone_iff_eq_none, or_assoc]
    · intro hsq p hp
      have hgf : videoGuard (videoAfterTs env ts) = false := hsq
      simp only [List.mem_singleton] at hp
      subst hp
      exact videoEntryOf_stats_skip env ts hgf

/-- Witness for C10: on `envC10` the payload supplied all four video
fields, so the stats stage is skipped and the record is emitted with all
stat fields null although the DOM stat parse would have yielded
`likesCount = 5`. -/
theorem claim_C10_witness :
    outcomeC10.statsQueried = false
    ∧ (∀ p ∈ outcomeC10.pushed,
        p.1.likesCount = envC10.payloadData.likesCount
        ∧ p.1.commentsCount = envC10.payloadData.commentsCount
        ∧ p.1.sharesCount = envC10.payloadData.sharesCount
        ∧ p.1.viewsCount = envC10.payloadData.viewsCount)
    ∧ (getPostStats envC10.statsDom).likesCount = some (some 5)
    ∧ envC10.payloadData.likesCount = none := by
  have h := claim_C10 envC10 outcomeC10 rfl
  have hq : outcomeC10.statsQueried = false := by decide
  exact ⟨hq, h.2 hq, by decide, rfl⟩

end FbScraper
